import Mathlib

/-!
Shallow embedding of the flashrust auth core: error taxonomy, the
transaction runner, the entity repositories for credentials and
sessions over both backend adapters (production Postgres adapter and
embedded SQLite adapter, modelled as list-valued tables), and the
sign-up / sign-in handlers.  Each definition is translated from the
corresponding Rust item; stateful SQL operations become explicit
state-passing over list-valued tables, driver-level failures become
explicit `Except`/outcome values, and panics become an explicit
outcome constructor.
-/

/-- `DatabaseError` from `backend/database/src/traits.rs`: the closed
error taxonomy, one constructor per Rust variant (note the source
spells the inconsistency variant `DatabaseInconsistence`). -/
inductive DatabaseError where
  | NotFound (msg : String)
  | CommunicationError
  | ConnectionFailed
  | ConnectionNotAvailable
  | QueryFailed (msg : String)
  | ColumnNotFound (column : String)
  | ProtocolNotSupported
  | NotImplemented
  | Unknown (msg : String)
  | DatabaseInconsistence (msg : String)
  | MigrationFailed (msg : String)
deriving Repr, DecidableEq

/-- The sqlx driver error variants that the repository's conversions
discriminate on (`sqlx::Error`); variants the source never matches
individually are collapsed into `Other`, which lands in the same
catch-all arm the source sends them to. -/
inductive SqlxError where
  | ColumnNotFound (column : String)
  | Io
  | Tls
  | PoolTimedOut
  | Database (msg : String)
  | Protocol
  | TypeNotFound (typeName : String)
  | RowNotFound
  | Decode
  | Other
deriving Repr, DecidableEq

/-- `impl From<SqlxError> for DatabaseError` from
`backend/database/src/traits.rs` lines 47-61. -/
def DatabaseError.fromSqlx : SqlxError → DatabaseError
  | .ColumnNotFound column => .ColumnNotFound column
  | .Io => .CommunicationError
  | .Tls => .CommunicationError
  | .PoolTimedOut => .ConnectionNotAvailable
  | .Database msg => .QueryFailed msg
  | .Protocol => .ProtocolNotSupported
  | .TypeNotFound typeName => .DatabaseInconsistence ("TypeNotFound " ++ typeName)
  | _ => .ConnectionFailed

/-- `ServerError` from `backend/auth/src/server.rs` lines 15-21 (the
`JsonRejection` payload is modelled by its body text). -/
inductive ServerError where
  | JsonRejection (body : String)
  | InternalServerError (msg : String)
  | Unauthorized
  | BadRequest (msg : String)
deriving Repr, DecidableEq

/-- `impl From<sqlx::Error> for ServerError` from
`backend/auth/src/server.rs` lines 23-29: every driver error becomes
the generic `InternalServerError`. -/
def ServerError.fromSqlx (_ : SqlxError) : ServerError :=
  .InternalServerError "Internal Server Error"

/-- Outcome of running a Rust expression that may return a value,
return an error, or panic (`unwrap`, `unreachable!`). -/
inductive RustOutcome (ε α : Type) where
  | ok (a : α)
  | err (e : ε)
  | panicked
deriving Repr, DecidableEq

/-! ## UUID text codec

`sqlx::types::Uuid` values are 128-bit; the embedded (SQLite) adapter
stores them through `Uuid::to_string` (lowercase hyphenated hex,
8-4-4-4-12) and reads them back through `Uuid::from_str`.  We model a
UUID by its 128-bit value and implement the hyphenated codec (the
format `to_string` produces and `from_str` accepts, hex digits
case-insensitive on input). -/

/-- Value of one hex digit character, case-insensitive, as the uuid
parser accepts. -/
def hexVal (c : Char) : Option Nat :=
  if '0' ≤ c ∧ c ≤ '9' then some (c.toNat - '0'.toNat)
  else if 'a' ≤ c ∧ c ≤ 'f' then some (c.toNat - 'a'.toNat + 10)
  else if 'A' ≤ c ∧ c ≤ 'F' then some (c.toNat - 'A'.toNat + 10)
  else none

/-- Lowercase hex digit character for a value below 16, as
`Uuid::to_string` prints. -/
def hexChar (n : Nat) : Char :=
  if n < 10 then Char.ofNat ('0'.toNat + n) else Char.ofNat ('a'.toNat + (n - 10))

/-- The `k` base-16 digits of `v % 16 ^ k`, most significant first. -/
def natToHexDigits : Nat → Nat → List Nat
  | 0, _ => []
  | k + 1, v => natToHexDigits k (v / 16) ++ [v % 16]

/-- Fold base-16 digits (most significant first) back into a number. -/
def hexDigitsToNat (acc : Nat) : List Nat → Nat
  | [] => acc
  | d :: ds => hexDigitsToNat (acc * 16 + d) ds

/-- Parse a run of hex characters, accumulating their value; `none` on
the first non-hex character. -/
def parseHex : List Char → Nat → Option Nat
  | [], acc => some acc
  | c :: cs, acc =>
    match hexVal c with
    | some d => parseHex cs (acc * 16 + d)
    | none => none

/-- A 128-bit UUID value. -/
def Uuid : Type := { v : Nat // v < 16 ^ 32 }

instance : DecidableEq Uuid := inferInstanceAs (DecidableEq { v : Nat // v < 16 ^ 32 })

/-- The 36 characters of the canonical hyphenated lowercase rendering
(8-4-4-4-12), as produced by `Uuid::to_string`. -/
def Uuid.toChars (u : Uuid) : List Char :=
  let ds := (natToHexDigits 32 u.val).map hexChar
  ds.take 8 ++ '-' :: ((ds.drop 8).take 4 ++ '-' :: ((ds.drop 12).take 4 ++ '-' :: ((ds.drop 16).take 4 ++ '-' :: ds.drop 20)))

/-- `Uuid::to_string`. -/
def Uuid.toString (u : Uuid) : String :=
  String.mk u.toChars

/-- Check the 8-4-4-4-12 hyphenated shape and return the 32 hex-digit
characters in order. -/
def splitHyphenated (cs : List Char) : Option (List Char) :=
  let g1 := cs.take 8
  match cs.drop 8 with
  | '-' :: r1 =>
    let g2 := r1.take 4
    match r1.drop 4 with
    | '-' :: r2 =>
      let g3 := r2.take 4
      match r2.drop 4 with
      | '-' :: r3 =>
        let g4 := r3.take 4
        match r3.drop 4 with
        | '-' :: r4 =>
          if g1.length = 8 ∧ g2.length = 4 ∧ g3.length = 4 ∧ g4.length = 4 ∧ r4.length = 12 then
            some (g1 ++ g2 ++ g3 ++ g4 ++ r4)
          else none
        | _ => none
      | _ => none
    | _ => none
  | _ => none

/-- `Uuid::from_str` on the hyphenated format: shape check, then hex
parse (the uuid crate accepts further synonym formats that never occur
in stored values, which are always produced by `to_string`). -/
def Uuid.fromStr (s : String) : Option Uuid :=
  match splitHyphenated s.data with
  | none => none
  | some hexs =>
    match parseHex hexs 0 with
    | none => none
    | some v => if hv : v < 16 ^ 32 then some ⟨v, hv⟩ else none

/-! ## Timestamps

`chrono::DateTime<Utc>` restricted to millisecond precision, the
precision at which the embedded adapter stores timestamps
(`timestamp_millis` / `DateTime::from_timestamp_millis`).  The chrono
range is `NaiveDateTime::MIN ..= NaiveDateTime::MAX`, i.e. millisecond
values from `-8334601228800000` to `8210266876799999`;
`from_timestamp_millis` returns `None` outside it. -/

def dtMinMillis : Int := -8334601228800000

def dtMaxMillis : Int := 8210266876799999

/-- A `DateTime<Utc>` at millisecond precision: a millisecond count in
the chrono-representable range. -/
def DateTimeUtc : Type := { m : Int // dtMinMillis ≤ m ∧ m ≤ dtMaxMillis }

instance : DecidableEq DateTimeUtc :=
  inferInstanceAs (DecidableEq { m : Int // dtMinMillis ≤ m ∧ m ≤ dtMaxMillis })

/-- `DateTime::timestamp_millis`. -/
def DateTimeUtc.timestampMillis (d : DateTimeUtc) : Int := d.val

/-- `DateTime::from_timestamp_millis`: in-range check. -/
def DateTimeUtc.fromTimestampMillis (m : Int) : Option DateTimeUtc :=
  if h : dtMinMillis ≤ m ∧ m ≤ dtMaxMillis then some ⟨m, h⟩ else none

/-! ## Entity shapes (`auth-database/src/entities`)

`CredentialsDAO` also stands for the structurally identical
`CredentialDAO` of `backend/auth/src/database/traits.rs`. -/

/-- `CredentialsDAO` from `entities/credentials.rs`. -/
structure CredentialsDAO where
  id : Uuid
  email : String
  password : String
  active : Bool
deriving DecidableEq

/-- `CreateCredentialsDAO` from `entities/credentials.rs` (also the
auth crate's `CreateCredentialDAO`). -/
structure CreateCredentialsDAO where
  email : String
  password : String
deriving DecidableEq

/-- `UpdateCredentialsDAO` from `entities/credentials.rs`. -/
structure UpdateCredentialsDAO where
  password : String
  active : Bool
deriving DecidableEq

/-- `CredentialsBy` from `entities/credentials.rs`. -/
inductive CredentialsBy where
  | Id (u : Uuid)
  | Email (e : String)

/-- `SessionsDAO` from `entities/sessions.rs`. -/
structure SessionsDAO where
  id : Uuid
  created_at : DateTimeUtc
  expires_at : DateTimeUtc
  credential_id : Uuid
  active : Bool
deriving DecidableEq

/-- `CreateSessionsDAO` from `entities/sessions.rs`. -/
structure CreateSessionsDAO where
  expires_at : DateTimeUtc
  credential_id : Uuid
deriving DecidableEq

/-- `UpdateSessionsDAO` from `entities/sessions.rs` (no fields). -/
structure UpdateSessionsDAO where
deriving DecidableEq

/-- `SessionsBy` from `entities/sessions.rs`. -/
inductive SessionsBy where
  | Id (u : Uuid)
  | CredentialId (u : Uuid)

/-- `SqliteCredentialsDAO` from `entities/credentials/sqlite.rs`: the
embedded adapter's stored row shape (id as text). -/
structure SqliteCredentialsDAO where
  id : String
  email : String
  password : String
  active : Bool
deriving DecidableEq

/-- `impl From<CredentialsDAO> for SqliteCredentialsDAO`
(`entities/credentials/sqlite.rs` lines 22-31). -/
def SqliteCredentialsDAO.fromCanonical (value : CredentialsDAO) : SqliteCredentialsDAO :=
  { id := value.id.toString
    email := value.email
    password := value.password
    active := value.active }

/-- `impl TryFrom<SqliteCredentialsDAO> for CredentialsDAO`
(`entities/credentials/sqlite.rs` lines 33-44). -/
def CredentialsDAO.tryFromSqlite (value : SqliteCredentialsDAO) : Except DatabaseError CredentialsDAO :=
  match Uuid.fromStr value.id with
  | none => .error (.Unknown "Could not convert id to uuid")
  | some id =>
    .ok { id := id
          email := value.email
          password := value.password
          active := value.active }

/-- `SqliteSessionsDAO` from `entities/sessions/sqlite.rs`: the
embedded adapter's stored row shape (ids as text, timestamps as
millisecond `i64`). -/
structure SqliteSessionsDAO where
  id : String
  created_at : Int
  expires_at : Int
  credential_id : String
  active : Bool
deriving DecidableEq

/-- `impl From<SessionsDAO> for SqliteSessionsDAO`
(`entities/sessions/sqlite.rs` lines 40-50). -/
def SqliteSessionsDAO.fromCanonical (value : SessionsDAO) : SqliteSessionsDAO :=
  { id := value.id.toString
    created_at := value.created_at.timestampMillis
    expires_at := value.expires_at.timestampMillis
    credential_id := value.credential_id.toString
    active := value.active }

/-- `impl TryFrom<SqliteSessionsDAO> for SessionsDAO`
(`entities/sessions/sqlite.rs` lines 20-38), field order as in the
source: id, created_at, expires_at, credential_id. -/
def SessionsDAO.tryFromSqlite (value : SqliteSessionsDAO) : Except DatabaseError SessionsDAO :=
  match Uuid.fromStr value.id with
  | none => .error (.Unknown "Could not convert id to uuid")
  | some id =>
    match DateTimeUtc.fromTimestampMillis value.created_at with
    | none => .error (.Unknown "Could not convert created_at to DateTime<Utc>")
    | some created_at =>
      match DateTimeUtc.fromTimestampMillis value.expires_at with
      | none => .error (.Unknown "Could not convert expires_at to DateTime<Utc>")
      | some expires_at =>
        match Uuid.fromStr value.credential_id with
        | none => .error (.Unknown "Could not convert credential_id to uuid")
        | some credential_id =>
          .ok { id := id
                created_at := created_at
                expires_at := expires_at
                credential_id := credential_id
                active := value.active }

/-! ## Repositories over list-valued tables

A table is a list of rows in insertion order.  `fetch_one` on a query
returns the first matching row and fails with `RowNotFound` when there
is none (which `From<SqlxError>` maps through its catch-all arm);
`fetch_optional` returns the first matching row or `None`.  An SQL
`UPDATE ... WHERE` mutates every matching row. -/

/-- Row predicate of the `WHERE` clause selected by a `CredentialsBy`
key (production adapter, native id type). -/
def CredentialsBy.matchesRow : CredentialsBy → CredentialsDAO → Bool
  | .Id u, r => decide (r.id = u)
  | .Email e, r => decide (r.email = e)

/-- Row predicate of the `WHERE` clause selected by a `CredentialsBy`
key against the embedded adapter's text-encoded rows (the key's id is
bound via `to_string`). -/
def CredentialsBy.matchesSqliteRow : CredentialsBy → SqliteCredentialsDAO → Bool
  | .Id u, r => decide (r.id = u.toString)
  | .Email e, r => decide (r.email = e)

/-- Row predicate of the `WHERE` clause selected by a `SessionsBy` key
(production adapter). -/
def SessionsBy.matchesRow : SessionsBy → SessionsDAO → Bool
  | .Id u, r => decide (r.id = u)
  | .CredentialId u, r => decide (r.credential_id = u)

/-- Row predicate of the `WHERE` clause selected by a `SessionsBy` key
against the embedded adapter's text-encoded rows. -/
def SessionsBy.matchesSqliteRow : SessionsBy → SqliteSessionsDAO → Bool
  | .Id u, r => decide (r.id = u.toString)
  | .CredentialId u, r => decide (r.credential_id = u.toString)

namespace PostgresCredentialsRepository

/-- `PostgresCredentialsRepository::try_get`
(`entities/credentials/postgres.rs` lines 104-124): `fetch_optional`
of `SELECT ... WHERE id/email = $1`. -/
def try_get (store : List CredentialsDAO) (key : CredentialsBy) : Option CredentialsDAO :=
  store.find? key.matchesRow

/-- `PostgresCredentialsRepository::exists`
(`entities/credentials/postgres.rs` lines 133-141): `try_get(..).is_some()`. -/
def existsKey (store : List CredentialsDAO) (key : CredentialsBy) : Bool :=
  (try_get store key).isSome

/-- `PostgresCredentialsRepository::insert`
(`entities/credentials/postgres.rs` lines 20-30): `INSERT ...
RETURNING`; the store assigns `id` (modelled by `genId`) and defaults
`active` to true. -/
def insert (store : List CredentialsDAO) (genId : Uuid) (input : CreateCredentialsDAO) :
    CredentialsDAO × List CredentialsDAO :=
  let row : CredentialsDAO :=
    { id := genId, email := input.email, password := input.password, active := true }
  (row, store ++ [row])

/-- `PostgresCredentialsRepository::delete`
(`entities/credentials/postgres.rs` lines 32-53): `UPDATE ... SET
active = false WHERE id/email = $1 RETURNING ...` then `fetch_one`. -/
def delete (store : List CredentialsDAO) (key : CredentialsBy) :
    Except DatabaseError (CredentialsDAO × List CredentialsDAO) :=
  let store' := store.map fun r => if key.matchesRow r then { r with active := false } else r
  match store'.find? key.matchesRow with
  | some row => .ok (row, store')
  | none => .error (DatabaseError.fromSqlx .RowNotFound)

end PostgresCredentialsRepository

namespace SqliteCredentialsRepository

/-- `SqliteCredentialsRepository::try_get`
(`entities/credentials/sqlite.rs` lines 163-189): `fetch_optional`
over the text-encoded table, then `TryFrom` decoding. -/
def try_get (store : List SqliteCredentialsDAO) (key : CredentialsBy) :
    Except DatabaseError (Option CredentialsDAO) :=
  match store.find? key.matchesSqliteRow with
  | some row => (CredentialsDAO.tryFromSqlite row).map some
  | none => .ok none

/-- `SqliteCredentialsRepository::exists`
(`entities/credentials/sqlite.rs` lines 59-66): `try_get(..).is_some()`. -/
def existsKey (store : List SqliteCredentialsDAO) (key : CredentialsBy) :
    Except DatabaseError Bool :=
  (try_get store key).map Option.isSome

/-- `SqliteCredentialsRepository::delete`
(`entities/credentials/sqlite.rs` lines 85-108): `UPDATE ... SET
active = false ... RETURNING`, `fetch_one`, then `TryFrom` decoding. -/
def delete (store : List SqliteCredentialsDAO) (key : CredentialsBy) :
    Except DatabaseError (CredentialsDAO × List SqliteCredentialsDAO) :=
  let store' := store.map fun r => if key.matchesSqliteRow r then { r with active := false } else r
  match store'.find? key.matchesSqliteRow with
  | some row => (CredentialsDAO.tryFromSqlite row).map fun e => (e, store')
  | none => .error (DatabaseError.fromSqlx .RowNotFound)

end SqliteCredentialsRepository

namespace PostgresSessionsRepository

/-- `PostgresSessionsRepository::try_get`
(`entities/sessions/postgres.rs` lines 84-104). -/
def try_get (store : List SessionsDAO) (key : SessionsBy) : Option SessionsDAO :=
  store.find? key.matchesRow

/-- `PostgresSessionsRepository::exists`
(`entities/sessions/postgres.rs` lines 113-120): `try_get(..).is_some()`. -/
def existsKey (store : List SessionsDAO) (key : SessionsBy) : Bool :=
  (try_get store key).isSome

/-- `PostgresSessionsRepository::insert`
(`entities/sessions/postgres.rs` lines 19-29): the store assigns `id`
and `created_at` (modelled by `genId`, `createdAt`) and defaults
`active` to true. -/
def insert (store : List SessionsDAO) (genId : Uuid) (createdAt : DateTimeUtc)
    (input : CreateSessionsDAO) : SessionsDAO × List SessionsDAO :=
  let row : SessionsDAO :=
    { id := genId, created_at := createdAt, expires_at := input.expires_at,
      credential_id := input.credential_id, active := true }
  (row, store ++ [row])

/-- `PostgresSessionsRepository::delete`
(`entities/sessions/postgres.rs` lines 31-52): `UPDATE ... SET active
= false WHERE id/credential_id = $1 RETURNING ...`, `fetch_one`. -/
def delete (store : List SessionsDAO) (key : SessionsBy) :
    Except DatabaseError (SessionsDAO × List SessionsDAO) :=
  let store' := store.map fun r => if key.matchesRow r then { r with active := false } else r
  match store'.find? key.matchesRow with
  | some row => .ok (row, store')
  | none => .error (DatabaseError.fromSqlx .RowNotFound)

/-- `PostgresSessionsRepository::update`
(`entities/sessions/postgres.rs` lines 54-60): `unreachable!("")` —
invoking it panics unconditionally. -/
def update (_store : List SessionsDAO) (_key : SessionsBy) (_upd : UpdateSessionsDAO) :
    RustOutcome DatabaseError (SessionsDAO × List SessionsDAO) :=
  .panicked

end PostgresSessionsRepository

namespace SqliteSessionsRepository

/-- `SqliteSessionsRepository::try_get` (`entities/sessions/sqlite.rs`
lines 151-177). -/
def try_get (store : List SqliteSessionsDAO) (key : SessionsBy) :
    Except DatabaseError (Option SessionsDAO) :=
  match store.find? key.matchesSqliteRow with
  | some row => (SessionsDAO.tryFromSqlite row).map some
  | none => .ok none

/-- `SqliteSessionsRepository::exists` (`entities/sessions/sqlite.rs`
lines 186-191): `try_get(..).is_some()`. -/
def existsKey (store : List SqliteSessionsDAO) (key : SessionsBy) :
    Except DatabaseError Bool :=
  (try_get store key).map Option.isSome

/-- `SqliteSessionsRepository::insert` (`entities/sessions/sqlite.rs`
lines 79-93): binds a fresh uuid as text and the input's millisecond
timestamp; the store assigns `created_at` and defaults `active`;
decodes the returned row. -/
def insert (store : List SqliteSessionsDAO) (genId : Uuid) (createdAtMillis : Int)
    (input : CreateSessionsDAO) : Except DatabaseError (SessionsDAO × List SqliteSessionsDAO) :=
  let row : SqliteSessionsDAO :=
    { id := genId.toString, created_at := createdAtMillis,
      expires_at := input.expires_at.timestampMillis,
      credential_id := input.credential_id.toString, active := true }
  (SessionsDAO.tryFromSqlite row).map fun e => (e, store ++ [row])

/-- `SqliteSessionsRepository::delete` (`entities/sessions/sqlite.rs`
lines 95-117): `UPDATE ... SET active = false WHERE id/credential_id
= $1 RETURNING ...`, `fetch_one`, then decoding. -/
def delete (store : List SqliteSessionsDAO) (key : SessionsBy) :
    Except DatabaseError (SessionsDAO × List SqliteSessionsDAO) :=
  let store' := store.map fun r => if key.matchesSqliteRow r then { r with active := false } else r
  match store'.find? key.matchesSqliteRow with
  | some row => (SessionsDAO.tryFromSqlite row).map fun e => (e, store')
  | none => .error (DatabaseError.fromSqlx .RowNotFound)

/-- `SqliteSessionsRepository::update` (`entities/sessions/sqlite.rs`
lines 119-125): `unreachable!("")` — invoking it panics
unconditionally. -/
def update (_store : List SqliteSessionsDAO) (_key : SessionsBy) (_upd : UpdateSessionsDAO) :
    RustOutcome DatabaseError (SessionsDAO × List SqliteSessionsDAO) :=
  .panicked

end SqliteSessionsRepository

/-! ## Transaction runner (`backend/database/src/traits.rs` lines 103-128)

`BaseDatabase::transaction`: `pool.begin()`, run the work on the live
transaction handle, `tx.commit()` on success.  The engine's behaviour
is explicit: `beginTx` is the outcome of `pool.begin()` (the opened
transaction state on success), `commitTx` the outcome of
`tx.commit()` on the work's final state (`none` = commit succeeded).
The result pairs the caller-visible `Result<T, E>` with `some`
committed state exactly when the commit happened; a transaction that
is not committed is rolled back by the engine on drop. -/
def BaseDatabase.transaction {σ τ ε : Type} (lift : DatabaseError → ε)
    (beginTx : Except DatabaseError σ) (commitTx : σ → Option DatabaseError)
    (f : σ → Except ε (τ × σ)) : Except ε τ × Option σ :=
  match beginTx with
  | .error e => (.error (lift e), none)
  | .ok tx =>
    match f tx with
    | .error e => (.error e, none)
    | .ok (result, tx') =>
      match commitTx tx' with
      | some e => (.error (lift e), none)
      | none => (.ok result, some tx')

/-! ## Input validation (`backend/auth/src/common.rs`, duplicated in
`backend/auth/src/handlers/sign_up.rs`) -/

/-- `MIN_LEN_PASSOWRD` (sic) from `common.rs` line 9 and
`sign_up.rs` line 16. -/
def MIN_LEN_PASSOWRD : Nat := 6

/-- `is_valid_password`: Rust's `password.len()` is the UTF-8 byte
length of the string, compared against the minimum. -/
def is_valid_password (password : String) : Bool :=
  MIN_LEN_PASSOWRD ≤ password.utf8ByteSize

/-- Character class `[a-zA-Z0-9._%+-]` of the email regex's local
part (`Char.isAlphanum` is exactly ASCII `[a-zA-Z0-9]`). -/
def isLocalChar (c : Char) : Bool :=
  c.isAlphanum || c = '.' || c = '_' || c = '%' || c = '+' || c = '-'

/-- Character class `[a-zA-Z0-9.-]` of the email regex's domain part. -/
def isDomainChar (c : Char) : Bool :=
  c.isAlphanum || c = '.' || c = '-'

/-- Split a list at its first occurrence of `c`: `some (before,
after)` with `c` removed, `none` if `c` does not occur. -/
def breakAtFirst (c : Char) : List Char → Option (List Char × List Char)
  | [] => none
  | x :: xs =>
    if x = c then some ([], xs)
    else
      match breakAtFirst c xs with
      | some (b, a) => some (x :: b, a)
      | none => none

/-- Match `[a-zA-Z0-9.-]+\.[a-zA-Z]{2,}` against the part after the
`@`.  A witnessing split's top-level-domain part is all-alphabetic and
final, so its dot is the last dot of the string; splitting at the last
dot therefore decides the existence of a witnessing split. -/
def domainTldMatch (cs : List Char) : Bool :=
  match breakAtFirst '.' cs.reverse with
  | some (tldRev, domRev) =>
    let tld := tldRev.reverse
    let dom := domRev.reverse
    (!dom.isEmpty) && dom.all isDomainChar && decide (2 ≤ tld.length) && tld.all Char.isAlpha
  | none => false

/-- `is_valid_email` (`common.rs` lines 35-40, `sign_up.rs` lines
71-76): boolean denotation of the anchored regex
`^[a-zA-Z0-9._%+-]+@[a-zA-Z0-9.-]+\.[a-zA-Z]{2,}$`.  Neither
character class contains `@`, so a match forces exactly one `@` with
a non-empty all-local-class part before it; the rest must match
`[a-zA-Z0-9.-]+\.[a-zA-Z]{2,}`.  (The Rust function also wraps regex
compilation in a `Result`; the literal pattern always compiles, so
the error branch is dead and the model returns `Bool`.) -/
def is_valid_email (email : String) : Bool :=
  match breakAtFirst '@' email.data with
  | some (localPart, rest) =>
    (!localPart.isEmpty) && localPart.all isLocalChar && (!rest.contains '@') && domainTldMatch rest
  | none => false

/-! ## Sign-up (`backend/auth/src/handlers/sign_up.rs`)

The handler is generic over a `CredentialsEntityRepository` `R`; the
deployed instantiation (`main.rs`, `server.rs` without the `unit`
feature) is `database::postgres::PostgresCredentialsRepository`,
whose `exists` runs `SELECT EXISTS (SELECT 1 FROM credentials WHERE
email = $1)` and whose `create` runs `INSERT ... RETURNING`.  The
`CredentialDAO` rows of that repository are modelled by the
structurally identical `CredentialsDAO`. -/

/-- `CredentialsEntityRepository::exists` of
`backend/auth/src/database/postgres.rs` lines 12-20, table-level
semantics of the `SELECT EXISTS` query (happy path, query succeeds):
true iff some row has the email. -/
def authPgExists (store : List CredentialsDAO) (email : String) : Bool :=
  store.any fun r => decide (r.email = email)

/-- `CredentialsEntityRepository::exists` of
`backend/auth/src/database/postgres.rs` lines 12-20 with the driver
outcome explicit: the source calls `.unwrap()` on the `fetch_one`
result, so a driver error panics instead of reaching the `Result`
channel. -/
def authPgExistsOutcome (queryResult : Except SqlxError Bool) : RustOutcome String Bool :=
  match queryResult with
  | .ok b => .ok b
  | .error _ => .panicked

/-- `sign_up` (`handlers/sign_up.rs` lines 18-65) instantiated at the
deployed Postgres repository, happy-path storage (begin, the two
queries and commit succeed): validate email, validate password, begin,
`exists` check, hash (modelled by the caller-supplied `hash`, since
argon2 draws a fresh random salt), `create`, commit.  Returns the
handler's `Result` and the credentials table after the transaction. -/
def sign_up (store : List CredentialsDAO) (genId : Uuid) (hash : String)
    (email password : String) : Except ServerError CredentialsDAO × List CredentialsDAO :=
  if ¬ is_valid_email email then
    (.error (.BadRequest "Invalid Email Format"), store)
  else if ¬ is_valid_password password then
    (.error (.BadRequest "Invalid Password Format"), store)
  else if authPgExists store email then
    (.error .Unauthorized, store)
  else
    let created := PostgresCredentialsRepository.insert store genId
      { email := email, password := hash }
    (.ok created.1, created.2)

/-! ## Sign-in (`backend/auth/src/handlers/sign_in.rs`)

Instantiated at the production repositories
(`auth_database::CredentialsRepository` / `SessionsRepository` without
the `unit` feature are the Postgres adapters).  `verify_password`
(`common.rs` lines 22-29) parses the stored hash (an error there is an
`InternalServerError`) and then runs the constant-time verifier; it is
modelled by the caller-supplied function `verify` applied to the
presented password and the stored hash.  The cookie assembly is
transport glue; the success value is modelled as the created session
(its id is the issued token).  Storage is happy-path: begin, queries
and commit succeed. -/
def sign_in (creds : List CredentialsDAO) (sessions : List SessionsDAO)
    (verify : String → String → Except ServerError Bool)
    (genId : Uuid) (createdAt expiresAt : DateTimeUtc)
    (email password : String) : Except ServerError SessionsDAO × List SessionsDAO :=
  if ¬ is_valid_email email then
    (.error (.BadRequest "Invalid Email Format"), sessions)
  else if password.utf8ByteSize < MIN_LEN_PASSOWRD then
    (.error (.BadRequest "Password must be at least 6 characters long"), sessions)
  else
    match PostgresCredentialsRepository.try_get creds (.Email email) with
    | none => (.error .Unauthorized, sessions)
    | some credential =>
      if ¬ credential.active then
        (.error .Unauthorized, sessions)
      else
        match verify password credential.password with
        | .error e => (.error e, sessions)
        | .ok isCorrectPassword =>
          if ¬ isCorrectPassword then
            (.error .Unauthorized, sessions)
          else
            let created := PostgresSessionsRepository.insert sessions genId createdAt
              { expires_at := expiresAt, credential_id := credential.id }
            (.ok created.1, created.2)

/-! ## Concrete sample data (used by the witness instances) -/

def u0 : Uuid := ⟨0, by norm_num⟩

def u1 : Uuid := ⟨1, by norm_num⟩

def u2 : Uuid := ⟨2, by norm_num⟩

def u3 : Uuid := ⟨3, by norm_num⟩

def t0 : DateTimeUtc := ⟨0, by decide⟩

def credRow : CredentialsDAO :=
  { id := u0, email := "a@b.co", password := "hash0", active := true }

def sessRow1 : SessionsDAO :=
  { id := u1, created_at := t0, expires_at := t0, credential_id := u0, active := true }

def sessRow2 : SessionsDAO :=
  { id := u2, created_at := t0, expires_at := t0, credential_id := u0, active := true }

def sessRow3 : SessionsDAO :=
  { id := u3, created_at := t0, expires_at := t0, credential_id := u1, active := true }

/-! ## Codec lemmas -/

theorem hexVal_hexChar {d : Nat} (hd : d < 16) : hexVal (hexChar d) = some d := by
  interval_cases d <;> rfl

theorem natToHexDigits_length (k v : Nat) : (natToHexDigits k v).length = k := by
  induction k generalizing v with
  | zero => rfl
  | succ k ih => simp [natToHexDigits, ih]

theorem natToHexDigits_lt (k v : Nat) : ∀ d ∈ natToHexDigits k v, d < 16 := by
  induction k generalizing v with
  | zero => simp [natToHexDigits]
  | succ k ih =>
    intro d hd
    simp only [natToHexDigits, List.mem_append, List.mem_singleton] at hd
    rcases hd with hd | hd
    · exact ih _ d hd
    · omega

theorem hexDigitsToNat_append (acc : Nat) (l1 l2 : List Nat) :
    hexDigitsToNat acc (l1 ++ l2) = hexDigitsToNat (hexDigitsToNat acc l1) l2 := by
  induction l1 generalizing acc with
  | nil => rfl
  | cons d ds ih => simp [hexDigitsToNat, ih]

theorem hexDigitsToNat_natToHexDigits (k v acc : Nat) :
    hexDigitsToNat acc (natToHexDigits k v) = acc * 16 ^ k + v % 16 ^ k := by
  induction k generalizing v acc with
  | zero => simp [natToHexDigits, hexDigitsToNat, Nat.mod_one]
  | succ k ih =>
    simp only [natToHexDigits, hexDigitsToNat_append, ih, hexDigitsToNat]
    have hmod : v % (16 ^ k * 16) = v % 16 + 16 * (v / 16 % 16 ^ k) := by
      rw [mul_comm]; exact Nat.mod_mul
    rw [pow_succ, hmod]
    ring

theorem parseHex_map_hexChar (ds : List Nat) (acc : Nat) (h : ∀ d ∈ ds, d < 16) :
    parseHex (ds.map hexChar) acc = some (hexDigitsToNat acc ds) := by
  induction ds generalizing acc with
  | nil => rfl
  | cons d ds ih =>
    have hd : d < 16 := h d (List.mem_cons_self d ds)
    simp only [List.map_cons, parseHex, hexVal_hexChar hd, hexDigitsToNat]
    exact ih _ fun x hx => h x (List.mem_cons_of_mem d hx)

theorem splitHyphenated_shape (ds : List Char) (hlen : ds.length = 32) :
    splitHyphenated (ds.take 8 ++ '-' :: ((ds.drop 8).take 4 ++ '-' :: ((ds.drop 12).take 4 ++ '-' :: ((ds.drop 16).take 4 ++ '-' :: ds.drop 20)))) = some ds := by
  have hA : (ds.take 8).length = 8 := by simp [hlen]
  have hB : ((ds.drop 8).take 4).length = 4 := by simp [hlen]
  have hC : ((ds.drop 12).take 4).length = 4 := by simp [hlen]
  have hD : ((ds.drop 16).take 4).length = 4 := by simp [hlen]
  have hE : (ds.drop 20).length = 12 := by simp [hlen]
  unfold splitHyphenated
  rw [List.take_left' hA, List.drop_left' hA]
  simp only
  rw [List.take_left' hB, List.drop_left' hB]
  simp only
  rw [List.take_left' hC, List.drop_left' hC]
  simp only
  rw [List.take_left' hD, List.drop_left' hD]
  simp only [hA, hB, hC, hD, hE, and_self, if_true]
  congr 1
  have h12 : (ds.drop 8).drop 4 = ds.drop 12 := by rw [List.drop_drop]
  have h16 : (ds.drop 12).drop 4 = ds.drop 16 := by rw [List.drop_drop]
  have h20 : (ds.drop 16).drop 4 = ds.drop 20 := by rw [List.drop_drop]
  calc ds.take 8 ++ (ds.drop 8).take 4 ++ (ds.drop 12).take 4 ++ (ds.drop 16).take 4 ++ ds.drop 20
      = ds.take 8 ++ ((ds.drop 8).take 4 ++ ((ds.drop 12).take 4 ++ ((ds.drop 16).take 4 ++ ds.drop 20))) := by
        simp [List.append_assoc]
    _ = ds := by
        rw [← h20, List.take_append_drop, ← h16, List.take_append_drop, ← h12,
          List.take_append_drop, List.take_append_drop]

theorem Uuid.fromStr_toString (u : Uuid) : Uuid.fromStr u.toString = some u := by
  have hlen : ((natToHexDigits 32 u.val).map hexChar).length = 32 := by
    simp [natToHexDigits_length]
  have hsplit := splitHyphenated_shape ((natToHexDigits 32 u.val).map hexChar) hlen
  have hparse : parseHex ((natToHexDigits 32 u.val).map hexChar) 0 = some u.val := by
    rw [parseHex_map_hexChar _ _ (natToHexDigits_lt 32 u.val),
      hexDigitsToNat_natToHexDigits, Nat.zero_mul, Nat.zero_add, Nat.mod_eq_of_lt u.2]
  unfold Uuid.fromStr Uuid.toString Uuid.toChars
  simp only [String.data]
  rw [hsplit]
  simp only [hparse]
  rw [dif_pos (show u.val < 16 ^ 32 from u.2)]
  rfl

theorem Uuid.toString_injective {u v : Uuid} (h : u.toString = v.toString) : u = v := by
  have hu := Uuid.fromStr_toString u
  have hv := Uuid.fromStr_toString v
  rw [h, hv] at hu
  exact (Option.some_injective _ hu).symm

theorem DateTimeUtc.fromTimestampMillis_timestampMillis (d : DateTimeUtc) :
    DateTimeUtc.fromTimestampMillis d.timestampMillis = some d := by
  unfold DateTimeUtc.fromTimestampMillis DateTimeUtc.timestampMillis
  rw [dif_pos d.2]
  rfl

theorem credentials_tryFromSqlite_fromCanonical (c : CredentialsDAO) :
    CredentialsDAO.tryFromSqlite (SqliteCredentialsDAO.fromCanonical c) = .ok c := by
  simp [CredentialsDAO.tryFromSqlite, SqliteCredentialsDAO.fromCanonical, Uuid.fromStr_toString]

theorem sessions_tryFromSqlite_fromCanonical (s : SessionsDAO) :
    SessionsDAO.tryFromSqlite (SqliteSessionsDAO.fromCanonical s) = .ok s := by
  simp [SessionsDAO.tryFromSqlite, SqliteSessionsDAO.fromCanonical, Uuid.fromStr_toString,
    DateTimeUtc.fromTimestampMillis_timestampMillis]

/-! ## Claim theorems -/

/-- C8: for the embedded (SQLite) adapter's encodings, converting a
Credential or Session entity to its stored form (ids as canonical
text, timestamps as millisecond integers) and decoding it back yields
exactly the original entity, and decoding a stored row fails — always
with an `Unknown`-kind error — precisely when a stored id text is not
a well-formed id or a stored timestamp is out of range. -/
theorem C8_sqlite_codec_roundtrip :
    (∀ c : CredentialsDAO,
      CredentialsDAO.tryFromSqlite (SqliteCredentialsDAO.fromCanonical c) = .ok c)
    ∧ (∀ s : SessionsDAO,
      SessionsDAO.tryFromSqlite (SqliteSessionsDAO.fromCanonical s) = .ok s)
    ∧ (∀ row : SqliteCredentialsDAO,
      ((∃ e, CredentialsDAO.tryFromSqlite row = .error e) ↔ Uuid.fromStr row.id = none)
      ∧ ((∃ msg, CredentialsDAO.tryFromSqlite row = .error (.Unknown msg)) ↔
        Uuid.fromStr row.id = none))
    ∧ (∀ row : SqliteSessionsDAO,
      ((∃ e, SessionsDAO.tryFromSqlite row = .error e) ↔
        (Uuid.fromStr row.id = none
          ∨ DateTimeUtc.fromTimestampMillis row.created_at = none
          ∨ DateTimeUtc.fromTimestampMillis row.expires_at = none
          ∨ Uuid.fromStr row.credential_id = none))
      ∧ ((∃ msg, SessionsDAO.tryFromSqlite row = .error (.Unknown msg)) ↔
        (Uuid.fromStr row.id = none
          ∨ DateTimeUtc.fromTimestampMillis row.created_at = none
          ∨ DateTimeUtc.fromTimestampMillis row.expires_at = none
          ∨ Uuid.fromStr row.credential_id = none))) := by
  refine ⟨credentials_tryFromSqlite_fromCanonical, sessions_tryFromSqlite_fromCanonical,
    ?_, ?_⟩
  · intro row
    cases h : Uuid.fromStr row.id <;> simp [CredentialsDAO.tryFromSqlite, h]
  · intro row
    cases h1 : Uuid.fromStr row.id with
    | none => simp [SessionsDAO.tryFromSqlite, h1]
    | some u1 =>
      cases h2 : DateTimeUtc.fromTimestampMillis row.created_at with
      | none => simp [SessionsDAO.tryFromSqlite, h1, h2]
      | some t1 =>
        cases h3 : DateTimeUtc.fromTimestampMillis row.expires_at with
        | none => simp [SessionsDAO.tryFromSqlite, h1, h2, h3]
        | some t2 =>
          cases h4 : Uuid.fromStr row.credential_id with
          | none => simp [SessionsDAO.tryFromSqlite, h1, h2, h3, h4]
          | some u2 => simp [SessionsDAO.tryFromSqlite, h1, h2, h3, h4]

/-- C6: invoking the Session repository's `update` operation, in
either backend adapter, aborts as a programming-error signal
(`unreachable!`): for every key, update input and store state the
outcome is a panic, so it never returns a value and never returns an
ordinary error (the `panicked` constructor is disjoint from `ok` and
`err`). -/
theorem C6_session_update_is_fatal_trap :
    ∀ (storeP : List SessionsDAO) (storeS : List SqliteSessionsDAO)
      (key : SessionsBy) (upd : UpdateSessionsDAO),
      PostgresSessionsRepository.update storeP key upd = .panicked
      ∧ SqliteSessionsRepository.update storeS key upd = .panicked :=
  fun _ _ _ _ => ⟨rfl, rfl⟩

/-- C5 (divergence witness): a storage failure during the sign-up
flow's duplicate-email check does not surface as
`InternalServerError` — the source `unwrap`s the query result, so the
process panics (here at the concrete failing input `PoolTimedOut`,
and likewise for every other driver error); by contrast the
`From<sqlx::Error> for ServerError` conversion used elsewhere does
produce the generic `InternalServerError`. -/
theorem C5_signup_exists_panics_on_storage_failure :
    authPgExistsOutcome (.error SqlxError.PoolTimedOut) = .panicked
    ∧ (∀ e : SqlxError, authPgExistsOutcome (.error e) = .panicked)
    ∧ (∀ e : SqlxError, ServerError.fromSqlx e = .InternalServerError "Internal Server Error") :=
  ⟨rfl, fun _ => rfl, fun _ => rfl⟩

/-- C4: in every entity repository of the auth-database crate,
`exists` is literally `try_get(key).is_some()` (definitional equality
in the embedding), so it returns true exactly when `try_get` returns
a non-empty result in the same store state; the auth crate's own
sign-up repository computes `exists` with a direct `SELECT EXISTS`
query, but that query provably agrees with `try_get`-non-emptiness on
every store state. -/
theorem C4_exists_agrees_with_try_get :
    (∀ (store : List CredentialsDAO) (key : CredentialsBy),
      PostgresCredentialsRepository.existsKey store key
        = (PostgresCredentialsRepository.try_get store key).isSome)
    ∧ (∀ (store : List SqliteCredentialsDAO) (key : CredentialsBy),
      SqliteCredentialsRepository.existsKey store key
        = (SqliteCredentialsRepository.try_get store key).map Option.isSome)
    ∧ (∀ (store : List SessionsDAO) (key : SessionsBy),
      PostgresSessionsRepository.existsKey store key
        = (PostgresSessionsRepository.try_get store key).isSome)
    ∧ (∀ (store : List SqliteSessionsDAO) (key : SessionsBy),
      SqliteSessionsRepository.existsKey store key
        = (SqliteSessionsRepository.try_get store key).map Option.isSome)
    ∧ (∀ (store : List CredentialsDAO) (email : String),
      authPgExists store email
        = (PostgresCredentialsRepository.try_get store (.Email email)).isSome) := by
  refine ⟨fun _ _ => rfl, fun _ _ => rfl, fun _ _ => rfl, fun _ _ => rfl, ?_⟩
  intro store email
  induction store with
  | nil => rfl
  | cons r rest ih =>
    by_cases h : r.email = email
    · simp [authPgExists, PostgresCredentialsRepository.try_get, CredentialsBy.matchesRow,
        List.find?_cons, h]
    · simp [authPgExists, PostgresCredentialsRepository.try_get,
        CredentialsBy.matchesRow, List.find?_cons, h] at ih ⊢
      exact ih

/-! ## Soft-delete lemmas -/

theorem find?_map_flipIf {α : Type} (p : α → Bool) (g : α → α)
    (hp : ∀ x, p (g x) = p x) (l : List α) (r : α) (h : l.find? p = some r) :
    (l.map fun x => if p x then g x else x).find? p = some (g r) := by
  rw [List.find?_map]
  have hcomp : (p ∘ fun x => if p x then g x else x) = p := by
    funext x
    by_cases hx : p x <;> simp [Function.comp, hx, hp]
  rw [hcomp, h]
  have hr : p r = true := List.find?_some h
  simp [hr]

theorem credentialsBy_matchesRow_set_active (key : CredentialsBy) (r : CredentialsDAO) (b : Bool) :
    key.matchesRow { r with active := b } = key.matchesRow r := by
  cases key <;> rfl

theorem sessionsBy_matchesRow_set_active (key : SessionsBy) (r : SessionsDAO) (b : Bool) :
    key.matchesRow { r with active := b } = key.matchesRow r := by
  cases key <;> rfl

theorem SessionsBy.matchesSqliteRow_set_active (key : SessionsBy) (r : SqliteSessionsDAO)
    (b : Bool) : key.matchesSqliteRow { r with active := b } = key.matchesSqliteRow r := by
  cases key <;> rfl

theorem SqliteSessionsDAO.fromCanonical_set_active (s : SessionsDAO) (b : Bool) :
    SqliteSessionsDAO.fromCanonical { s with active := b }
      = { SqliteSessionsDAO.fromCanonical s with active := b } := rfl

theorem SessionsBy.matchesSqliteRow_fromCanonical (key : SessionsBy) (s : SessionsDAO) :
    key.matchesSqliteRow (SqliteSessionsDAO.fromCanonical s) = key.matchesRow s := by
  cases key with
  | Id u =>
    simp only [SessionsBy.matchesSqliteRow, SessionsBy.matchesRow,
      SqliteSessionsDAO.fromCanonical, decide_eq_decide]
    exact ⟨Uuid.toString_injective, fun h => by rw [h]⟩
  | CredentialId u =>
    simp only [SessionsBy.matchesSqliteRow, SessionsBy.matchesRow,
      SqliteSessionsDAO.fromCanonical, decide_eq_decide]
    exact ⟨Uuid.toString_injective, fun h => by rw [h]⟩

/-- C7: for every key matching an existing row, `delete` (production
credentials adapter; embedded sessions adapter over a well-formed,
i.e. encoded, store) returns the first matching row with `active`
flipped to false and every other field unchanged, never removes any
row (the table keeps its length, each row mapped in place), and the
deleted row remains observable through `try_get` on the same key. -/
theorem C7_delete_is_soft :
    (∀ (store : List CredentialsDAO) (key : CredentialsBy) (r : CredentialsDAO),
      store.find? key.matchesRow = some r →
      PostgresCredentialsRepository.delete store key =
        .ok ({ r with active := false },
          store.map fun x => if key.matchesRow x then { x with active := false } else x)
      ∧ PostgresCredentialsRepository.try_get
          (store.map fun x => if key.matchesRow x then { x with active := false } else x) key
          = some { r with active := false }
      ∧ (store.map fun x => if key.matchesRow x then { x with active := false } else x).length
          = store.length)
    ∧ (∀ (ss : List SessionsDAO) (key : SessionsBy) (s : SessionsDAO),
      ss.find? key.matchesRow = some s →
      SqliteSessionsRepository.delete (ss.map SqliteSessionsDAO.fromCanonical) key =
        .ok ({ s with active := false },
          (ss.map fun x => if key.matchesRow x then { x with active := false } else x).map
            SqliteSessionsDAO.fromCanonical)
      ∧ SqliteSessionsRepository.try_get
          ((ss.map fun x => if key.matchesRow x then { x with active := false } else x).map
            SqliteSessionsDAO.fromCanonical) key
          = .ok (some { s with active := false })
      ∧ ((ss.map fun x => if key.matchesRow x then { x with active := false } else x).map
          SqliteSessionsDAO.fromCanonical).length = ss.length) := by
  constructor
  · intro store key r h
    have hfind := find?_map_flipIf key.matchesRow (fun x => { x with active := false })
      (fun x => credentialsBy_matchesRow_set_active key x false) store r h
    refine ⟨?_, ?_, by simp⟩
    · simp only [PostgresCredentialsRepository.delete, hfind]
    · simp only [PostgresCredentialsRepository.try_get, hfind]
  · intro ss key s h
    have hencfind : (ss.map SqliteSessionsDAO.fromCanonical).find? key.matchesSqliteRow
        = some (SqliteSessionsDAO.fromCanonical s) := by
      rw [List.find?_map]
      have hc : (key.matchesSqliteRow ∘ SqliteSessionsDAO.fromCanonical) = key.matchesRow := by
        funext x
        exact SessionsBy.matchesSqliteRow_fromCanonical key x
      rw [hc, h]
      rfl
    have hfind := find?_map_flipIf key.matchesSqliteRow (fun x => { x with active := false })
      (fun x => SessionsBy.matchesSqliteRow_set_active key x false)
      (ss.map SqliteSessionsDAO.fromCanonical) _ hencfind
    have hfn : ((fun x : SqliteSessionsDAO =>
          if key.matchesSqliteRow x then { x with active := false } else x)
        ∘ SqliteSessionsDAO.fromCanonical)
        = (SqliteSessionsDAO.fromCanonical ∘ fun x : SessionsDAO =>
          if key.matchesRow x then { x with active := false } else x) := by
      funext x
      simp only [Function.comp_apply, SessionsBy.matchesSqliteRow_fromCanonical]
      by_cases hx : key.matchesRow x
      · simp [hx, SqliteSessionsDAO.fromCanonical_set_active]
      · simp [hx]
    have hstore : ((ss.map SqliteSessionsDAO.fromCanonical).map
        fun x => if key.matchesSqliteRow x then { x with active := false } else x)
        = (ss.map fun x => if key.matchesRow x then { x with active := false } else x).map
            SqliteSessionsDAO.fromCanonical := by
      rw [List.map_map, List.map_map, hfn]
    have hflip : ({ SqliteSessionsDAO.fromCanonical s with active := false })
        = SqliteSessionsDAO.fromCanonical { s with active := false } :=
      (SqliteSessionsDAO.fromCanonical_set_active s false).symm
    refine ⟨?_, ?_, by simp⟩
    · have hstep : SqliteSessionsRepository.delete (ss.map SqliteSessionsDAO.fromCanonical) key
          = (SessionsDAO.tryFromSqlite
              { SqliteSessionsDAO.fromCanonical s with active := false }).map
              (fun e => (e, (ss.map SqliteSessionsDAO.fromCanonical).map
                fun x => if key.matchesSqliteRow x then { x with active := false } else x)) := by
        simp only [SqliteSessionsRepository.delete]
        rw [hfind]
      rw [hstep, hflip, sessions_tryFromSqlite_fromCanonical, hstore]
      rfl
    · rw [← hstore]
      have hstep : SqliteSessionsRepository.try_get
          ((ss.map SqliteSessionsDAO.fromCanonical).map
            fun x => if key.matchesSqliteRow x then { x with active := false } else x) key
          = (SessionsDAO.tryFromSqlite
              { SqliteSessionsDAO.fromCanonical s with active := false }).map some := by
        simp only [SqliteSessionsRepository.try_get]
        rw [hfind]
      rw [hstep, hflip, sessions_tryFromSqlite_fromCanonical]
      rfl

/-- C10: a successful Session `delete` with key `CredentialId c` (in
either backend adapter) sets `active = false` on every session row
whose `credential_id` equals `c` — not only on the returned row —
and leaves session rows referencing other credentials unchanged. -/
theorem C10_delete_by_credential_id_flips_all_sessions :
    (∀ (c : Uuid) (store : List SessionsDAO) (e : SessionsDAO) (store' : List SessionsDAO),
      PostgresSessionsRepository.delete store (.CredentialId c) = .ok (e, store') →
      store' = store.map (fun r => if r.credential_id = c then { r with active := false } else r)
      ∧ (∀ r ∈ store, r.credential_id = c → { r with active := false } ∈ store')
      ∧ (∀ r ∈ store, r.credential_id ≠ c → r ∈ store'))
    ∧ (∀ (c : Uuid) (store : List SqliteSessionsDAO) (e : SessionsDAO)
        (store' : List SqliteSessionsDAO),
      SqliteSessionsRepository.delete store (.CredentialId c) = .ok (e, store') →
      store' = store.map
        (fun r => if r.credential_id = c.toString then { r with active := false } else r)
      ∧ (∀ r ∈ store, r.credential_id = c.toString → { r with active := false } ∈ store')
      ∧ (∀ r ∈ store, r.credential_id ≠ c.toString → r ∈ store')) := by
  constructor
  · intro c store e store' h
    have hfun : (fun r : SessionsDAO =>
        if SessionsBy.matchesRow (.CredentialId c) r then { r with active := false } else r)
        = fun r => if r.credential_id = c then { r with active := false } else r := by
      funext r
      simp [SessionsBy.matchesRow]
    have hstore : store' = store.map
        (fun r => if r.credential_id = c then { r with active := false } else r) := by
      simp only [PostgresSessionsRepository.delete] at h
      rcases hfind : List.find? (SessionsBy.matchesRow (.CredentialId c))
          (store.map fun r =>
            if SessionsBy.matchesRow (.CredentialId c) r then { r with active := false } else r)
          with _ | row
      · rw [hfind] at h
        cases h
      · rw [hfind] at h
        rw [← hfun]
        exact (congrArg Prod.snd (Except.ok.inj h)).symm
    refine ⟨hstore, ?_, ?_⟩
    · intro r hr hc
      rw [hstore]
      have := List.mem_map_of_mem
        (fun r => if r.credential_id = c then { r with active := false } else r) hr
      simpa [hc] using this
    · intro r hr hc
      rw [hstore]
      have := List.mem_map_of_mem
        (fun r => if r.credential_id = c then { r with active := false } else r) hr
      simpa [hc] using this
  · intro c store e store' h
    have hfun : (fun r : SqliteSessionsDAO =>
        if SessionsBy.matchesSqliteRow (.CredentialId c) r then { r with active := false } else r)
        = fun r => if r.credential_id = c.toString then { r with active := false } else r := by
      funext r
      simp [SessionsBy.matchesSqliteRow]
    have hstore : store' = store.map
        (fun r => if r.credential_id = c.toString then { r with active := false } else r) := by
      simp only [SqliteSessionsRepository.delete] at h
      rcases hfind : List.find? (SessionsBy.matchesSqliteRow (.CredentialId c))
          (store.map fun r =>
            if SessionsBy.matchesSqliteRow (.CredentialId c) r then { r with active := false }
            else r)
          with _ | row
      · rw [hfind] at h
        cases h
      · rw [hfind] at h
        have h2 : (SessionsDAO.tryFromSqlite row).map
            (fun e => (e, store.map fun r =>
              if SessionsBy.matchesSqliteRow (.CredentialId c) r then { r with active := false }
              else r)) = Except.ok (e, store') := h
        rcases htf : SessionsDAO.tryFromSqlite row with e' | v
        · rw [htf] at h2
          simp [Except.map] at h2
        · rw [htf] at h2
          simp only [Except.map] at h2
          rw [← hfun]
          exact (congrArg Prod.snd (Except.ok.inj h2)).symm
    refine ⟨hstore, ?_, ?_⟩
    · intro r hr hc
      rw [hstore]
      have := List.mem_map_of_mem
        (fun r => if r.credential_id = c.toString then { r with active := false } else r) hr
      simpa [hc] using this
    · intro r hr hc
      rw [hstore]
      have := List.mem_map_of_mem
        (fun r => if r.credential_id = c.toString then { r with active := false } else r) hr
      simpa [hc] using this

/-- C1: the transaction runner begins a transaction, invokes the work
on the live transaction handle, and commits exactly when the work
returns success; if the work fails (business or storage error) or the
commit itself fails, nothing is committed and the error reaches the
caller unchanged in kind (work errors verbatim; begin/commit storage
errors through the caller's `From<DatabaseError>` lifting). -/
theorem C1_transaction_runner :
    ∀ (σ τ ε : Type) (lift : DatabaseError → ε) (beginTx : Except DatabaseError σ)
      (commitTx : σ → Option DatabaseError) (f : σ → Except ε (τ × σ)),
      ((BaseDatabase.transaction lift beginTx commitTx f).2.isSome
        ↔ ∃ s v s', beginTx = .ok s ∧ f s = .ok (v, s') ∧ commitTx s' = none)
      ∧ (∀ e, beginTx = .error e →
          BaseDatabase.transaction lift beginTx commitTx f = (.error (lift e), none))
      ∧ (∀ s e, beginTx = .ok s → f s = .error e →
          BaseDatabase.transaction lift beginTx commitTx f = (.error e, none))
      ∧ (∀ s v s' e, beginTx = .ok s → f s = .ok (v, s') → commitTx s' = some e →
          BaseDatabase.transaction lift beginTx commitTx f = (.error (lift e), none))
      ∧ (∀ s v s', beginTx = .ok s → f s = .ok (v, s') → commitTx s' = none →
          BaseDatabase.transaction lift beginTx commitTx f = (.ok v, some s')) := by
  intro σ τ ε lift beginTx commitTx f
  refine ⟨?_, ?_, ?_, ?_, ?_⟩
  · cases hb : beginTx with
    | error e => simp [BaseDatabase.transaction, hb]
    | ok s =>
      cases hf : f s with
      | error e => simp [BaseDatabase.transaction, hb, hf]
      | ok p =>
        obtain ⟨v, s'⟩ := p
        cases hc : commitTx s' with
        | none =>
          simp only [BaseDatabase.transaction, hb, hf, hc, Option.isSome_some, true_iff]
          exact ⟨s, v, s', rfl, hf, hc⟩
        | some e => simp [BaseDatabase.transaction, hb, hf, hc]
  · intro e hb
    simp [BaseDatabase.transaction, hb]
  · intro s e hb hf
    simp [BaseDatabase.transaction, hb, hf]
  · intro s v s' e hb hf hc
    simp [BaseDatabase.transaction, hb, hf, hc]
  · intro s v s' hb hf hc
    simp [BaseDatabase.transaction, hb, hf, hc]

/-- C1 witness: concrete runs of the transaction runner — a
successful unit of work is committed with its result, a failing unit
of work propagates its error verbatim with nothing committed, and a
failing commit surfaces the lifted storage error with nothing
committed. -/
theorem C1_witness :
    BaseDatabase.transaction (σ := Nat) (τ := Nat) (ε := ServerError)
      (fun _ => .InternalServerError "Internal Server Error") (.ok 10)
      (fun _ => none) (fun s => .ok (s + 1, s + 2)) = (.ok 11, some 12)
    ∧ BaseDatabase.transaction (σ := Nat) (τ := Nat) (ε := ServerError)
      (fun _ => .InternalServerError "Internal Server Error") (.ok 10)
      (fun _ => none) (fun _ => .error .Unauthorized) = (.error .Unauthorized, none)
    ∧ BaseDatabase.transaction (σ := Nat) (τ := Nat) (ε := ServerError)
      (fun _ => .InternalServerError "Internal Server Error") (.ok 10)
      (fun _ => some .ConnectionFailed) (fun s => .ok (s + 1, s + 2))
      = (.error (.InternalServerError "Internal Server Error"), none) :=
  ⟨(C1_transaction_runner Nat Nat ServerError
      (fun _ => .InternalServerError "Internal Server Error") (.ok 10)
      (fun _ => none) (fun s => .ok (s + 1, s + 2))).2.2.2.2 10 11 12 rfl rfl rfl,
   (C1_transaction_runner Nat Nat ServerError
      (fun _ => .InternalServerError "Internal Server Error") (.ok 10)
      (fun _ => none) (fun _ => .error .Unauthorized)).2.2.1 10 .Unauthorized rfl rfl,
   (C1_transaction_runner Nat Nat ServerError
      (fun _ => .InternalServerError "Internal Server Error") (.ok 10)
      (fun _ => some .ConnectionFailed) (fun s => .ok (s + 1, s + 2))).2.2.2.1
      10 11 12 .ConnectionFailed rfl rfl rfl⟩

/-- C2 counterexample: the store already holds a Credential for
`"a@b.co"`, yet the sign-up request `("a@b.co", "abc")` — whose email
has a Credential row — is answered with
`BadRequest "Invalid Password Format"`, not `Unauthorized`: input
validation runs before the duplicate-email check, so the claim quoted
over every such request fails at this one. -/
theorem C2_counterexample_short_password_beats_duplicate_check :
    authPgExists [credRow] "a@b.co" = true
    ∧ sign_up [credRow] u1 "hash1" "a@b.co" "abc"
        = (.error (.BadRequest "Invalid Password Format"), [credRow])
    ∧ ServerError.BadRequest "Invalid Password Format" ≠ ServerError.Unauthorized :=
  ⟨rfl, rfl, by decide⟩

/-- C2 (amended): for every sign-up request that passes input
validation (well-formed email, password of at least the minimum
length) and whose email already has a Credential row in the store —
whether that row is active or inactive — sign-up returns Unauthorized
and the credentials table is unchanged: no new Credential row is
inserted. -/
theorem C2_duplicate_email_signup_unauthorized :
    ∀ (store : List CredentialsDAO) (genId : Uuid) (hash : String) (email password : String),
      is_valid_email email = true → is_valid_password password = true →
      authPgExists store email = true →
      sign_up store genId hash email password = (.error .Unauthorized, store) := by
  intro store genId hash email password hemail hpw hdup
  simp [sign_up, hemail, hpw, hdup]

/-- C2 witness: a concrete duplicate sign-up (valid email and
password, email present in the store with an **inactive** row as well
as with an active one) is rejected as Unauthorized with the store
unchanged. -/
theorem C2_witness :
    sign_up [credRow] u1 "hash1" "a@b.co" "abcdef" = (.error .Unauthorized, [credRow])
    ∧ sign_up [{ credRow with active := false }] u1 "hash1" "a@b.co" "abcdef"
        = (.error .Unauthorized, [{ credRow with active := false }]) :=
  ⟨C2_duplicate_email_signup_unauthorized [credRow] u1 "hash1" "a@b.co" "abcdef"
      rfl rfl rfl,
   C2_duplicate_email_signup_unauthorized [{ credRow with active := false }] u1 "hash1"
      "a@b.co" "abcdef" rfl rfl rfl⟩

/-- C3: for every sign-in request that passes input validation, the
three failure cases — no Credential row for the email, a Credential
with `active = false`, and a stored hash that does not verify against
the presented password — all produce the identical outcome
`(Unauthorized, unchanged session store)`: the same error constructor
carrying no data, with no observable difference between the cases. -/
theorem C3_signin_failures_indistinguishable :
    ∀ (creds : List CredentialsDAO) (sessions : List SessionsDAO)
      (verify : String → String → Except ServerError Bool) (genId : Uuid)
      (createdAt expiresAt : DateTimeUtc) (email password : String),
      is_valid_email email = true → MIN_LEN_PASSOWRD ≤ password.utf8ByteSize →
      ((PostgresCredentialsRepository.try_get creds (.Email email) = none →
        sign_in creds sessions verify genId createdAt expiresAt email password
          = (.error .Unauthorized, sessions))
      ∧ (∀ c, PostgresCredentialsRepository.try_get creds (.Email email) = some c →
          c.active = false →
          sign_in creds sessions verify genId createdAt expiresAt email password
            = (.error .Unauthorized, sessions))
      ∧ (∀ c, PostgresCredentialsRepository.try_get creds (.Email email) = some c →
          c.active = true → verify password c.password = .ok false →
          sign_in creds sessions verify genId createdAt expiresAt email password
            = (.error .Unauthorized, sessions))) := by
  intro creds sessions verify genId createdAt expiresAt email password hemail hlen
  have hnlt : ¬ password.utf8ByteSize < MIN_LEN_PASSOWRD := Nat.not_lt.mpr hlen
  refine ⟨?_, ?_, ?_⟩
  · intro habsent
    simp [sign_in, hemail, hnlt, habsent]
  · intro c hfound hinactive
    simp [sign_in, hemail, hnlt, hfound, hinactive]
  · intro c hfound hactive hverify
    simp [sign_in, hemail, hnlt, hfound, hactive, hverify]

/-- C3 witness: with the single stored credential `credRow`, the
three concrete failure scenarios — unknown email (empty store),
deactivated credential, and wrong password (a verifier that rejects)
— each return exactly `(Unauthorized, unchanged sessions)`. -/
theorem C3_witness :
    sign_in [] [] (fun _ _ => .ok true) u1 t0 t0 "a@b.co" "abcdef"
      = (.error .Unauthorized, [])
    ∧ sign_in [{ credRow with active := false }] [] (fun _ _ => .ok true) u1 t0 t0
        "a@b.co" "abcdef" = (.error .Unauthorized, [])
    ∧ sign_in [credRow] [] (fun _ _ => .ok false) u1 t0 t0 "a@b.co" "abcdef"
      = (.error .Unauthorized, []) :=
  ⟨(C3_signin_failures_indistinguishable [] [] (fun _ _ => .ok true) u1 t0 t0
      "a@b.co" "abcdef" rfl (by decide)).1 rfl,
   (C3_signin_failures_indistinguishable [{ credRow with active := false }] []
      (fun _ _ => .ok true) u1 t0 t0 "a@b.co" "abcdef" rfl (by decide)).2.1
      { credRow with active := false } rfl rfl,
   (C3_signin_failures_indistinguishable [credRow] [] (fun _ _ => .ok false) u1 t0 t0
      "a@b.co" "abcdef" rfl (by decide)).2.2 credRow rfl rfl rfl⟩

/-- C9 counterexample: the password `"ééé"` has 3 characters — fewer
than 6 — but its UTF-8 byte length is 6, which is what Rust's
`password.len()` measures, so sign-up does **not** return BadRequest:
it proceeds all the way to storage and inserts a Credential row (the
store is touched), refuting the claim at this request. -/
theorem C9_counterexample_three_char_password_accepted :
    "ééé".length = 3
    ∧ "ééé".utf8ByteSize = 6
    ∧ sign_up [] u0 "hash0" "a@b.co" "ééé"
        = (.ok { id := u0, email := "a@b.co", password := "hash0", active := true },
           [{ id := u0, email := "a@b.co", password := "hash0", active := true }]) :=
  ⟨rfl, rfl, rfl⟩

/-- C9 (amended): for every request whose email passes format
validation and whose password is shorter than 6 **UTF-8 bytes**
(Rust's `len()`), sign-up and sign-in return BadRequest before any
storage access, leaving the store unchanged — sign-up with message
"Invalid Password Format", sign-in with message "Password must be at
least 6 characters long" — and passwords of 6 or more bytes (hence
all passwords of 6 or more characters) pass the check. -/
theorem C9_short_password_rejected_before_storage :
    (∀ (store : List CredentialsDAO) (genId : Uuid) (hash : String) (email password : String),
      is_valid_email email = true → password.utf8ByteSize < MIN_LEN_PASSOWRD →
      sign_up store genId hash email password
        = (.error (.BadRequest "Invalid Password Format"), store))
    ∧ (∀ (creds : List CredentialsDAO) (sessions : List SessionsDAO)
        (verify : String → String → Except ServerError Bool) (genId : Uuid)
        (createdAt expiresAt : DateTimeUtc) (email password : String),
      is_valid_email email = true → password.utf8ByteSize < MIN_LEN_PASSOWRD →
      sign_in creds sessions verify genId createdAt expiresAt email password
        = (.error (.BadRequest "Password must be at least 6 characters long"), sessions))
    ∧ (∀ password : String, MIN_LEN_PASSOWRD ≤ password.utf8ByteSize →
      is_valid_password password = true) := by
  refine ⟨?_, ?_, ?_⟩
  · intro store genId hash email password hemail hshort
    have hinvalid : is_valid_password password = false := by
      simp only [is_valid_password, decide_eq_false_iff_not, Nat.not_le]
      exact hshort
    simp [sign_up, hemail, hinvalid]
  · intro creds sessions verify genId createdAt expiresAt email password hemail hshort
    simp [sign_in, hemail, hshort]
  · intro password hlong
    simp only [is_valid_password, decide_eq_true_eq]
    exact hlong

/-- C9 witness: the concrete request `("a@b.co", "abc")` is rejected
by both handlers with the two source messages and no store change,
and the 6-byte password `"abcdef"` passes the validity check. -/
theorem C9_witness :
    sign_up [credRow] u1 "hash1" "a@b.co" "abc"
      = (.error (.BadRequest "Invalid Password Format"), [credRow])
    ∧ sign_in [credRow] [sessRow1] (fun _ _ => .ok true) u2 t0 t0 "a@b.co" "abc"
      = (.error (.BadRequest "Password must be at least 6 characters long"), [sessRow1])
    ∧ is_valid_password "abcdef" = true :=
  ⟨C9_short_password_rejected_before_storage.1 [credRow] u1 "hash1" "a@b.co" "abc"
      rfl (by decide),
   C9_short_password_rejected_before_storage.2.1 [credRow] [sessRow1] (fun _ _ => .ok true)
      u2 t0 t0 "a@b.co" "abc" rfl (by decide),
   C9_short_password_rejected_before_storage.2.2 "abcdef" (by decide)⟩

/-- C7 witness: deleting the stored credential by email (production
adapter) and the stored session by credential id (embedded adapter,
encoded store) returns the row with only `active` flipped, and the
row is still present in the table. -/
theorem C7_witness :
    PostgresCredentialsRepository.delete [credRow] (.Email "a@b.co")
        = .ok ({ credRow with active := false }, [{ credRow with active := false }])
    ∧ SqliteSessionsRepository.delete ([sessRow1].map SqliteSessionsDAO.fromCanonical)
        (.CredentialId u0)
        = .ok ({ sessRow1 with active := false },
            [SqliteSessionsDAO.fromCanonical { sessRow1 with active := false }]) := by
  have h1 := (C7_delete_is_soft.1 [credRow] (.Email "a@b.co") credRow rfl).1
  have h2 := (C7_delete_is_soft.2 [sessRow1] (.CredentialId u0) sessRow1 rfl).1
  exact ⟨h1.trans (by rfl), h2.trans (by rfl)⟩

/-- C10 witness: deleting by `CredentialId u0` in a three-session
store (two sessions of `u0`, one of `u1`) flips `active` on both
`u0` sessions — also the one that is not returned — and leaves the
`u1` session unchanged, in both adapters. -/
theorem C10_witness :
    ([sessRow1, sessRow2, sessRow3].map
        (fun r => if r.credential_id = u0 then { r with active := false } else r)
      = [{ sessRow1 with active := false }, { sessRow2 with active := false }, sessRow3])
    ∧ ({ sessRow2 with active := false }
        ∈ [{ sessRow1 with active := false }, { sessRow2 with active := false }, sessRow3])
    ∧ (sessRow3
        ∈ [{ sessRow1 with active := false }, { sessRow2 with active := false }, sessRow3])
    ∧ (([sessRow1, sessRow2, sessRow3].map SqliteSessionsDAO.fromCanonical).map
        (fun r => if r.credential_id = u0.toString then { r with active := false } else r)
      = [SqliteSessionsDAO.fromCanonical { sessRow1 with active := false },
         SqliteSessionsDAO.fromCanonical { sessRow2 with active := false },
         SqliteSessionsDAO.fromCanonical sessRow3]) := by
  have h1 := C10_delete_by_credential_id_flips_all_sessions.1 u0
    [sessRow1, sessRow2, sessRow3] { sessRow1 with active := false }
    ([sessRow1, sessRow2, sessRow3].map
      (fun r => if r.credential_id = u0 then { r with active := false } else r))
    (by rw [show ([sessRow1, sessRow2, sessRow3].map
        (fun r => if r.credential_id = u0 then { r with active := false } else r))
        = [{ sessRow1 with active := false }, { sessRow2 with active := false }, sessRow3]
        from rfl]
        rfl)
  have h2 := C10_delete_by_credential_id_flips_all_sessions.2 u0
    ([sessRow1, sessRow2, sessRow3].map SqliteSessionsDAO.fromCanonical)
    { sessRow1 with active := false }
    (([sessRow1, sessRow2, sessRow3].map SqliteSessionsDAO.fromCanonical).map
      (fun r => if r.credential_id = u0.toString then { r with active := false } else r))
    (by rfl)
  refine ⟨?_, ?_, ?_, ?_⟩
  · exact (by rfl : ([sessRow1, sessRow2, sessRow3].map
      (fun r => if r.credential_id = u0 then { r with active := false } else r))
      = [{ sessRow1 with active := false }, { sessRow2 with active := false }, sessRow3])
  · exact h1.2.1 sessRow2 (by simp) rfl
  · exact h1.2.2 sessRow3 (by simp) (by decide)
  · exact (h2.1).symm.trans (by rfl)
